import Mathlib

/-!
Verification of the design-parity-checker test harness
(`test_assets/run_fixture_checks.py` and
`test_assets/generate_fixture_sources.py`).

The harness consumes JSON produced by an external comparator, so the
embedding carries a small JSON value type and a parser that follows the
grammar accepted by Python's `json.loads` (strict mode, as used by the
scripts).  Numbers are modelled as exact rationals: every numeric literal
the harness manipulates is a decimal literal, and no claim depends on
binary floating-point rounding.  Divergences from CPython that no claim
exercises (the non-standard `NaN`/`Infinity` literals, lone surrogate
`\uXXXX` escapes) make the parser reject where CPython would accept,
and are noted inline.  Python-level exceptions are modelled by `Option`:
a function that can raise returns `none` on the raising inputs.
-/

namespace DPC

/-- JSON values, as produced by `json.loads`.  Objects keep insertion
order, matching CPython dicts; duplicate keys are collapsed at parse time
(last value wins, first position kept), matching CPython. -/
inductive Json where
  | null : Json
  | bool : Bool → Json
  | num : ℚ → Json
  | str : String → Json
  | arr : List Json → Json
  | obj : List (String × Json) → Json

/-- Python truthiness restricted to the values `json.loads` can produce:
`None`-like `null`, `False`, `0`, `""`, `[]` and `{}` are falsy. -/
def pyFalsy : Json → Bool
  | .null => true
  | .bool b => !b
  | .num q => q == 0
  | .str s => s.isEmpty
  | .arr xs => xs.isEmpty
  | .obj kvs => kvs.isEmpty

/-- Dict lookup `d.get(k)` on a parsed JSON object. -/
def jLookup (kvs : List (String × Json)) (k : String) : Option Json :=
  (kvs.find? (fun p => p.1 == k)).map (fun p => p.2)

/-- CPython dict insertion: an existing key keeps its position and gets the
new value, a fresh key is appended. -/
def dictInsert : List (String × Json) → String → Json → List (String × Json)
  | [], k, v => [(k, v)]
  | (k', v') :: t, k, v =>
      if k' == k then (k', v) :: t else (k', v') :: dictInsert t k v

/-- JSON whitespace (the characters `json.loads` skips around tokens). -/
def isJsonWs (c : Char) : Bool :=
  c == ' ' || c == '\t' || c == '\n' || c == '\r'

/-- ASCII whitespace stripped by Python's `str.strip()` (the inputs in this
repository are ASCII). -/
def isPyWs (c : Char) : Bool :=
  c == ' ' || c == '\t' || c == '\n' || c == '\r' || c == '\x0b' || c == '\x0c'

/-- Python's `str.strip()`. -/
def pyStrip (s : List Char) : List Char :=
  ((s.dropWhile isPyWs).reverse.dropWhile isPyWs).reverse

def skipWs (s : List Char) : List Char := s.dropWhile isJsonWs

/-- Match an exact run of characters, returning the rest of the input. -/
def expectChars : List Char → List Char → Option (List Char)
  | [], s => some s
  | _ :: _, [] => none
  | c :: cs, x :: xs => if x == c then expectChars cs xs else none

def parseHex (c : Char) : Option ℕ :=
  if c.isDigit then some (c.toNat - 48)
  else if 'a' ≤ c && c ≤ 'f' then some (c.toNat - 87)
  else if 'A' ≤ c && c ≤ 'F' then some (c.toNat - 55)
  else none

/-- Body of a JSON string after the opening quote, per `py_scanstring` in
strict mode: raw control characters are rejected, the short escapes and
`\uXXXX` are honoured, surrogate pairs are combined.  (CPython would keep a
lone surrogate; `Char` cannot represent one, so the parser rejects it —
no string in this development contains `\u` escapes at all.) -/
def parseStringRest : ℕ → List Char → List Char → Option (String × List Char)
  | 0, _, _ => none
  | fuel + 1, s, acc =>
    match s with
    | [] => none
    | c :: rest =>
      if c == '"' then some (String.mk acc.reverse, rest)
      else if c == '\\' then
        match rest with
        | [] => none
        | e :: rest2 =>
          if e == '"' then parseStringRest fuel rest2 ('"' :: acc)
          else if e == '\\' then parseStringRest fuel rest2 ('\\' :: acc)
          else if e == '/' then parseStringRest fuel rest2 ('/' :: acc)
          else if e == 'b' then parseStringRest fuel rest2 ('\x08' :: acc)
          else if e == 'f' then parseStringRest fuel rest2 ('\x0c' :: acc)
          else if e == 'n' then parseStringRest fuel rest2 ('\n' :: acc)
          else if e == 'r' then parseStringRest fuel rest2 ('\r' :: acc)
          else if e == 't' then parseStringRest fuel rest2 ('\t' :: acc)
          else if e == 'u' then
            match rest2 with
            | h1 :: h2 :: h3 :: h4 :: rest3 => do
              let a ← parseHex h1
              let b ← parseHex h2
              let c3 ← parseHex h3
              let d ← parseHex h4
              let code := 4096 * a + 256 * b + 16 * c3 + d
              if code < 0xd800 || 0xdfff < code then
                parseStringRest fuel rest3 (Char.ofNat code :: acc)
              else if code < 0xdc00 then
                match rest3 with
                | '\\' :: 'u' :: g1 :: g2 :: g3 :: g4 :: rest4 => do
                  let a2 ← parseHex g1
                  let b2 ← parseHex g2
                  let c4 ← parseHex g3
                  let d2 ← parseHex g4
                  let code2 := 4096 * a2 + 256 * b2 + 16 * c4 + d2
                  if 0xdc00 ≤ code2 && code2 ≤ 0xdfff then
                    parseStringRest fuel rest4
                      (Char.ofNat (0x10000 + (code - 0xd800) * 1024 + (code2 - 0xdc00)) :: acc)
                  else none
                | _ => none
              else none
            | _ => none
          else none
      else if c.toNat < 32 then none
      else parseStringRest fuel rest (c :: acc)

def digitsToNat (ds : List Char) : ℕ :=
  ds.foldl (fun n c => 10 * n + (c.toNat - 48)) 0

/-- A JSON number, per the `NUMBER_RE` regex of `json/scanner.py`:
`(-?(?:0|[1-9]\d*))(\.\d+)?([eE][-+]?\d+)?`.  An optional group that does
not fully match is left unconsumed, exactly as with the regex (so `"1.x"`
parses the number `1` and leaves `".x"`).  The value is exact: `int` and
`float` results are merged into `ℚ`.  The non-standard `NaN`/`Infinity`
literals CPython also accepts have no `ℚ` image and are rejected; they
never occur in this repository's streams. -/
def parseNumber (s : List Char) : Option (ℚ × List Char) :=
  let (neg, s1) :=
    match s with
    | '-' :: r => (true, r)
    | _ => (false, s)
  match s1 with
  | [] => none
  | c :: _ =>
    if !c.isDigit then none
    else
      let (ids, r1) :=
        match s1 with
        | '0' :: r => (['0'], r)
        | _ => (s1.takeWhile Char.isDigit, s1.dropWhile Char.isDigit)
      let intPart := digitsToNat ids
      let (fracDigits, r2) :=
        match r1 with
        | '.' :: r =>
          let fd := r.takeWhile Char.isDigit
          if fd.isEmpty then (([] : List Char), r1)
          else (fd, r.dropWhile Char.isDigit)
        | _ => (([] : List Char), r1)
      let (expNeg, expDigits, r3) :=
        match r2 with
        | e :: r =>
          if e == 'e' || e == 'E' then
            let (esign, r') :=
              match r with
              | '+' :: rr => (false, rr)
              | '-' :: rr => (true, rr)
              | _ => (false, r)
            let ed := r'.takeWhile Char.isDigit
            if ed.isEmpty then (false, ([] : List Char), r2)
            else (esign, ed, r'.dropWhile Char.isDigit)
          else (false, ([] : List Char), r2)
        | [] => (false, ([] : List Char), r2)
      let mantissa : ℚ :=
        ((intPart * 10 ^ fracDigits.length + digitsToNat fracDigits : ℕ) : ℚ) /
          ((10 ^ fracDigits.length : ℕ) : ℚ)
      let expVal := digitsToNat expDigits
      let scaled : ℚ :=
        if expNeg then mantissa / ((10 ^ expVal : ℕ) : ℚ)
        else mantissa * ((10 ^ expVal : ℕ) : ℚ)
      some (if neg then -scaled else scaled, r3)

mutual

/-- One JSON value, dispatching on the first character as `py_make_scanner`
does.  The fuel only bounds bracket-nesting depth; `loads` supplies more
fuel than any input can use. -/
def parseValue : ℕ → List Char → Option (Json × List Char)
  | 0, _ => none
  | fuel + 1, s =>
    match s with
    | [] => none
    | c :: rest =>
      if c == 'n' then (expectChars ['u', 'l', 'l'] rest).map (fun r => (Json.null, r))
      else if c == 't' then (expectChars ['r', 'u', 'e'] rest).map (fun r => (Json.bool true, r))
      else if c == 'f' then (expectChars ['a', 'l', 's', 'e'] rest).map (fun r => (Json.bool false, r))
      else if c == '"' then
        (parseStringRest (rest.length + 1) rest []).map (fun p => (Json.str p.1, p.2))
      else if c == '[' then
        let s1 := skipWs rest
        match s1 with
        | ']' :: r => some (Json.arr [], r)
        | _ => parseElems fuel s1 []
      else if c == '\x7b' then
        let s1 := skipWs rest
        match s1 with
        | '\x7d' :: r => some (Json.obj [], r)
        | _ => parseMembers fuel s1 []
      else (parseNumber (c :: rest)).map (fun p => (Json.num p.1, p.2))

/-- Array elements after the opening bracket (nonempty case). -/
def parseElems : ℕ → List Char → List Json → Option (Json × List Char)
  | 0, _, _ => none
  | fuel + 1, s, acc =>
    match parseValue fuel s with
    | none => none
    | some (v, r) =>
      match skipWs r with
      | ',' :: r2 => parseElems fuel (skipWs r2) (v :: acc)
      | ']' :: r2 => some (Json.arr (v :: acc).reverse, r2)
      | _ => none

/-- Object members after the opening brace (nonempty case). -/
def parseMembers : ℕ → List Char → List (String × Json) → Option (Json × List Char)
  | 0, _, _ => none
  | fuel + 1, s, acc =>
    match s with
    | '"' :: rest =>
      match parseStringRest (rest.length + 1) rest [] with
      | none => none
      | some (k, r) =>
        match skipWs r with
        | ':' :: r2 =>
          match parseValue fuel (skipWs r2) with
          | none => none
          | some (v, r3) =>
            match skipWs r3 with
            | ',' :: r4 => parseMembers fuel (skipWs r4) (dictInsert acc k v)
            | '\x7d' :: r4 => some (Json.obj (dictInsert acc k v), r4)
            | _ => none
        | _ => none
    | _ => none

end

/-- Python's `json.loads`: skip leading whitespace, read one value, skip trailing
whitespace, and reject any extra data — exactly `JSONDecoder.decode`. -/
def loads (s : List Char) : Option Json :=
  match parseValue (s.length + 1) (skipWs s) with
  | none => none
  | some (v, rest) => if (skipWs rest).isEmpty then some v else none

/-! ## Output extraction (`run_fixture_checks.extract_json`, `run_compare`) -/

/-- The comprehension `[idx for idx, ch in enumerate(text) if ch == "\x7b"]`. -/
def bracePositions (text : List Char) : List ℕ :=
  (List.range text.length).filter (fun i => text.getD i ' ' == '\x7b')

/-- One attempt of the recovery loop body:
`json.loads(text[idx:].strip())`. -/
def attemptChunk (text : List Char) (i : ℕ) : Option Json :=
  loads (pyStrip (text.drop i))

/-- The `for idx in reversed(indices)` loop of `extract_json`: first
successful parse wins. -/
def tryFrom (text : List Char) : List ℕ → Option Json
  | [] => none
  | i :: rest =>
    match attemptChunk text i with
    | some v => some v
    | none => tryFrom text rest

/-- Function `extract_json` from `run_fixture_checks.py`: empty text yields nothing;
otherwise parse the whole text, and on failure scan the opening-brace
positions from the end backward for a parseable suffix. -/
def extract_json (text : List Char) : Option Json :=
  if text.isEmpty then none
  else
    match loads text with
    | some v => some v
    | none => tryFrom text (bracePositions text).reverse

/-- Payload recovery in `run_compare` (lines 73–77): extract from the
stripped standard output, and only if that yields nothing from the
stripped standard error. -/
def recover_payload (stdout stderr : List Char) : Option Json :=
  match extract_json (pyStrip stdout) with
  | some p => some p
  | none => extract_json (pyStrip stderr)

/-- Python's `max` on a list of naturals (`None` for an empty list). -/
def pyMax : List ℕ → Option ℕ
  | [] => none
  | x :: xs =>
    match pyMax xs with
    | none => some x
    | some m => some (max x m)

/-- Modelled from the spec, §4.4 steps 1–2: parse the full stream; on
failure the result is determined by the *largest* opening-brace position
whose suffix parses ("prefer the one nearest the end"), with no explicit
iteration order. -/
def extract_json_spec (text : List Char) : Option Json :=
  match loads text with
  | some v => some v
  | none =>
    match pyMax ((bracePositions text).filter (fun i => (attemptChunk text i).isSome)) with
    | some i => attemptChunk text i
    | none => none

/-- Modelled from the spec, §4.4 steps 3–4: stdout first, stderr only if
stdout yields nothing, absent payload if both fail. -/
def recover_payload_spec (stdout stderr : List Char) : Option Json :=
  match extract_json_spec (pyStrip stdout) with
  | some p => some p
  | none => extract_json_spec (pyStrip stderr)

/-! ## Mutation taxonomy and assertion derivation
(`generate_fixture_sources.py`) -/

/-- A mutation record, restricted to the two fields the taxonomy functions
consult via `.get`; the other fields (selector, from, to) are never read
by the code under verification.  `none` models an absent key. -/
structure Mutation where
  property : Option String
  delta : Option String

/-- The `DELTA_ORDER` table: tiny < small < medium < large. -/
def DELTA_ORDER (s : String) : Option ℕ :=
  if s = "tiny" then some 0
  else if s = "small" then some 1
  else if s = "medium" then some 2
  else if s = "large" then some 3
  else none

/-- Lookup `DELTA_ORDER.get(m.get("delta"))`: an absent delta looks up to nothing. -/
def deltaOrder : Option String → Option ℕ
  | none => none
  | some s => DELTA_ORDER s

/-- Function `max_delta_level`: highest recognized delta ordinal, `None` for an
empty list or when no delta is recognized. -/
def max_delta_level (mutations : List Mutation) : Option ℕ :=
  if mutations.isEmpty then none
  else pyMax (mutations.filterMap (fun m => deltaOrder m.delta))

def typography_props : List String :=
  ["font-size", "font-weight", "line-height", "letter-spacing", "font-family"]

/-- Function `has_typography_change`: some mutation's property is typographic.
(The `if not mutations` short-circuit in the source is the `any []` case.) -/
def has_typography_change (mutations : List Mutation) : Bool :=
  mutations.any (fun m =>
    match m.property with
    | some p => typography_props.contains p
    | none => false)

/-- An assertion map: metric key → numeric threshold, in dict insertion
order.  Every assertion map in the repository has numeric values. -/
abbrev AMap := List (String × ℚ)

def alookup (a : AMap) (k : String) : Option ℚ :=
  (a.find? (fun p => p.1 == k)).map (fun p => p.2)

/-- Function `default_assertions`: each category test fires independently, adding
its entries in source order; dict insertion is concatenation here because
no two branches share a key. -/
def default_assertions (category : List String) (complexity : String)
    (mutations : List Mutation) : AMap :=
  (if "layout" ∈ category ∨ "spacing" ∈ category ∨ "icon" ∈ category then
    [("pixel_regions_min", (1 : ℚ))]
  else []) ++
  (if "color" ∈ category then
    [("color_diffs_min", (1 : ℚ)), ("color_score_max", (0.9995 : ℚ))]
  else []) ++
  (if "typography" ∈ category ∧ has_typography_change mutations = true then
    match max_delta_level mutations with
    | some 0 => [("typography_score_max", (0.9999 : ℚ))]
    | some 1 => [("typography_score_max", (0.999 : ℚ))]
    | some 2 => [("typography_score_max", (0.995 : ℚ))]
    | some 3 => [("typography_score_max", (0.99 : ℚ))]
    | _ => []
  else []) ++
  (if "copy" ∈ category then [("content_score_max", (0.95 : ℚ))] else []) ++
  (if complexity = "high" then [("similarity_max", (0.995 : ℚ))] else [])

/-! ## Case repository (`add_case`) -/

/-- A case record with the fields `add_case` stores.  Optional fields are
`none` when the Python code would omit the key (argument absent or falsy). -/
structure CaseRecord where
  case_id : String
  title : String
  category : List String
  complexity : String
  mutations : List Mutation
  expectations : List Json
  assertions : AMap
  ref_html : String
  impl_html : String
  viewport : Option Json
  viewports : Option Json
  notes : Option Json
  assertions_by_viewport : Option (List (String × AMap))

/-- The `if x:` guard used for the optional `add_case` keys: a falsy value is
treated like an absent one. -/
def pyTruthyJson : Option Json → Option Json
  | some v => if pyFalsy v then none else some v
  | none => none

/-- Function `add_case`: builds the record and appends it.  The stored assertion
map is `assertions or default_assertions(category, complexity, mutations)`
— Python's `or` falls through on `None` *and* on an empty dict. -/
def add_case (cases : List CaseRecord) (case_id title : String)
    (category : List String) (complexity : String) (mutations : List Mutation)
    (expectations : List Json) (ref_html impl_html : String)
    (viewport viewports notes : Option Json) (assertions : Option AMap)
    (assertions_by_viewport : Option (List (String × AMap))) : List CaseRecord :=
  let stored : AMap :=
    match assertions with
    | some a =>
      if a.isEmpty then default_assertions category complexity mutations else a
    | none => default_assertions category complexity mutations
  let abv : Option (List (String × AMap)) :=
    match assertions_by_viewport with
    | some m => if m.isEmpty then none else some m
    | none => none
  cases ++ [⟨case_id, title, category, complexity, mutations, expectations,
    stored, ref_html, impl_html, pyTruthyJson viewport, pyTruthyJson viewports,
    pyTruthyJson notes, abv⟩]

/-! ## Assertion evaluation (`check_assertions`, `get_metric`) -/

/-- The distinct failure messages `check_assertions` can emit, keeping the
data interpolated into each message and dropping only the constant text
and the case/viewport prefix (which is uniform across one call). -/
inductive Failure where
  | missingPayload : Failure
  | errorPayload : Json → Failure
  | unexpectedMode : Option Json → Failure
  | pixelRegions : ℕ → ℚ → Failure
  | colorDiffs : ℕ → ℚ → Failure
  | similarityHigh : ℚ → ℚ → Failure
  | colorScore : ℚ → ℚ → Failure
  | typographyScore : ℚ → ℚ → Failure
  | layoutScore : ℚ → ℚ → Failure
  | contentScore : ℚ → ℚ → Failure

/-- Function `get_metric`: `None` unless the payload is truthy with a truthy
`metrics` dict holding the key.  The outer `Option` models the
`AttributeError` CPython raises when `.get` is called on a truthy
non-dict (`none` = raises). -/
def get_metric (payload : Option Json) (key : String) : Option (Option Json) :=
  match payload with
  | none => some none
  | some p =>
    if pyFalsy p then some none
    else
      match p with
      | Json.obj kvs =>
        match jLookup kvs "metrics" with
        | none => some none
        | some m =>
          if pyFalsy m then some none
          else
            match m with
            | Json.obj mkvs => some (jLookup mkvs key)
            | _ => none
      | _ => none

/-- The access `x.get(key) if x else None` (outer `none` = `AttributeError`). -/
def getIfTruthy (o : Option Json) (key : String) : Option (Option Json) :=
  match o with
  | none => some none
  | some v =>
    if pyFalsy v then some none
    else
      match v with
      | Json.obj kvs => some (jLookup kvs key)
      | _ => none

/-- Python `len` on a JSON value (`none` = `TypeError` on an unsized value). -/
def pyLen : Json → Option ℕ
  | .arr xs => some xs.length
  | .obj kvs => some kvs.length
  | .str s => some s.length
  | _ => none

/-- A JSON value usable in a numeric comparison: numbers, and booleans
(Python bools are ints).  `none` = `TypeError`. -/
def pyNumber : Json → Option ℚ
  | .num q => some q
  | .bool b => some (if b then 1 else 0)
  | _ => none

/-- The comparison `payload.get("mode") == s` for a string `s`: true exactly when the
mode is that string (a missing or non-string mode never equals it). -/
def isModeStr (kvs : List (String × Json)) (s : String) : Bool :=
  match jLookup kvs "mode" with
  | some (Json.str t) => t == s
  | _ => false

/-- The lookup `payload.get("error", \x7b\x7d).get("message", "unknown error")`. -/
def error_message (kvs : List (String × Json)) : Option Json :=
  match jLookup kvs "error" with
  | none => some (Json.str "unknown error")
  | some (Json.obj e) => some ((jLookup e "message").getD (Json.str "unknown error"))
  | some _ => none

/-- One `_min` block of `check_assertions`: only if the key is declared,
read `metric.get(subkey) if metric else None`, skip when absent, and fail
when the length is strictly below the threshold. -/
def checkMin (assertions : AMap) (key : String) (metric : Option Json)
    (subkey : String) (mk : ℕ → ℚ → Failure) : Option (List Failure) :=
  match alookup assertions key with
  | none => some []
  | some thr =>
    match getIfTruthy metric subkey with
    | none => none
    | some none => some []
    | some (some v) =>
      match pyLen v with
      | none => none
      | some n => some (if (n : ℚ) < thr then [mk n thr] else [])

/-- One score `_max` block: only if the key is declared, read
`metric.get("score") if metric else None`, skip when absent, and fail when
the score is strictly above the threshold. -/
def checkScoreMax (assertions : AMap) (key : String) (metric : Option Json)
    (mk : ℚ → ℚ → Failure) : Option (List Failure) :=
  match alookup assertions key with
  | none => some []
  | some thr =>
    match getIfTruthy metric "score" with
    | none => none
    | some none => some []
    | some (some v) =>
      match pyNumber v with
      | none => none
      | some q => some (if thr < q then [mk q thr] else [])

/-- The `similarity_max` block: the observed value is `payload.get("similarity")`. -/
def checkSimilarity (assertions : AMap) (similarity : Option Json) :
    Option (List Failure) :=
  match alookup assertions "similarity_max" with
  | none => some []
  | some thr =>
    match similarity with
    | none => some []
    | some v =>
      match pyNumber v with
      | none => none
      | some q => some (if thr < q then [Failure.similarityHigh q thr] else [])

/-- Function `check_assertions` (case id and viewport name elided — they only feed
the uniform message prefix): falsy payload → missing payload; error mode →
the error message; other non-compare mode → unexpected mode; otherwise the
five metrics are fetched eagerly and the seven threshold blocks run in
source order. -/
def check_assertions (payload : Option Json) (assertions : AMap) :
    Option (List Failure) :=
  match payload with
  | none => some [Failure.missingPayload]
  | some p =>
    if pyFalsy p then some [Failure.missingPayload]
    else
      match p with
      | Json.obj kvs =>
        if isModeStr kvs "error" then
          (error_message kvs).map (fun m => [Failure.errorPayload m])
        else if !isModeStr kvs "compare" then
          some [Failure.unexpectedMode (jLookup kvs "mode")]
        else do
          let similarity := jLookup kvs "similarity"
          let pixel ← get_metric (some p) "pixel"
          let color ← get_metric (some p) "color"
          let typography ← get_metric (some p) "typography"
          let layout ← get_metric (some p) "layout"
          let content ← get_metric (some p) "content"
          let f1 ← checkMin assertions "pixel_regions_min" pixel "diffRegions"
            Failure.pixelRegions
          let f2 ← checkMin assertions "color_diffs_min" color "diffs"
            Failure.colorDiffs
          let f3 ← checkSimilarity assertions similarity
          let f4 ← checkScoreMax assertions "color_score_max" color
            Failure.colorScore
          let f5 ← checkScoreMax assertions "typography_score_max" typography
            Failure.typographyScore
          let f6 ← checkScoreMax assertions "layout_score_max" layout
            Failure.layoutScore
          let f7 ← checkScoreMax assertions "content_score_max" content
            Failure.contentScore
          some (f1 ++ f2 ++ f3 ++ f4 ++ f5 ++ f6 ++ f7)
      | _ => none

/-! ## Per-viewport assertion resolution and exit policy (`main`) -/

def abvLookup (m : List (String × AMap)) (k : String) : Option AMap :=
  (m.find? (fun p => p.1 == k)).map (fun p => p.2)

/-- Lines 335–339 of `run_fixture_checks.py`:
`assertions_by_viewport.get(viewport_name)` replaces the case-level map
when it returns a value (`is not None`); a `None` viewport name can never
match a JSON object key. -/
def resolve_assertions (assertions_by_viewport : List (String × AMap))
    (assertions : AMap) (viewport_name : Option String) : AMap :=
  match viewport_name with
  | none => assertions
  | some n =>
    match abvLookup assertions_by_viewport n with
    | some override => override
    | none => assertions

/-- The two exit decisions of `main`, as a function of the state they
read: `raise SystemExit("No cases found …")` (line 229, exit status 1)
when the case list is empty after the limit, and
`if args.strict and (failures or errors): raise SystemExit(1)`
(lines 380–381) at the end; falling off `main` exits 0. -/
def main_exit_code (strict : Bool) (numCases : ℕ) (failures : List String)
    (errors : ℕ) : ℕ :=
  if numCases = 0 then 1
  else if strict && (!failures.isEmpty || errors != 0) then 1
  else 0

/-! ## Shared lemmas -/

theorem alookup_skip_append (xs ys : AMap) (k : String)
    (h : ∀ p ∈ xs, (p.1 == k) = false) :
    alookup (xs ++ ys) k = alookup ys k := by
  induction xs with
  | nil => simp
  | cons p t ih =>
    have hp := h p (by simp)
    have ht : ∀ q ∈ t, (q.1 == k) = false := fun q hq => h q (by simp [hq])
    have hrec := ih ht
    simp only [alookup, List.find?_append] at hrec
    simp [alookup, List.find?_cons, hp, hrec]

theorem alookup_head (k : String) (v : ℚ) (t : AMap) :
    alookup ((k, v) :: t) k = some v := by
  simp [alookup, List.find?]

/-! ## C10 -/

/-- C10: a successfully extracted payload that is the empty object is
classified as a missing payload (the Python `if not payload:` guard treats
the falsy `{}` like `None`), producing exactly the single
missing-payload failure, for every assertion map. -/
theorem check_assertions_empty_object_is_missing (a : AMap) :
    check_assertions (some (Json.obj [])) a = some [Failure.missingPayload] :=
  rfl

/-! ## C1 -/

/-- The stream of claim C1:
`"warming up...\n\x7b"mode":"compare","similarity":0.9\x7d\ndone"`. -/
def c1Stream : List Char :=
  String.toList "warming up...\n\x7b\"mode\":\"compare\",\"similarity\":0.9\x7d\ndone"

/-- The same stream truncated at the end of the JSON object (no trailing
`done` line). -/
def c1StreamTruncated : List Char :=
  String.toList "warming up...\n\x7b\"mode\":\"compare\",\"similarity\":0.9\x7d"

/-- C1 counterexample: on the exact stream of the claim, `extract_json`
returns no payload.  The whole-stream parse fails, and the only suffix
starting at an opening brace still carries the trailing text `done`, which
`json.loads` rejects as extra data. -/
theorem extract_json_c1_stream_no_payload : extract_json c1Stream = none := by
  with_unfolding_all rfl

/-- C1 amended: on the claim's stream, output extraction yields no payload
(`None`), not the parsed object — the backward brace scan only tolerates
noise *before* the object; with the trailing `done` removed the parsed
object `\x7b"mode":"compare","similarity":0.9\x7d` is recovered. -/
theorem extract_json_c1_recovery_boundary :
    extract_json c1Stream = none ∧
      extract_json c1StreamTruncated =
        some (Json.obj
          [("mode", Json.str "compare"), ("similarity", Json.num (0.9 : ℚ))]) := by
  constructor
  · with_unfolding_all rfl
  · with_unfolding_all rfl

/-! ## C4 -/

/-- C4: per-(case, viewport) assertion resolution.  When the current
viewport's name is a key of `assertions_by_viewport`, that viewport's full
assertion map is the result — never merged with the case-level map; when
the name is not a key (or the viewport is unnamed) the case-level map is
used unchanged. -/
theorem resolve_assertions_replace_or_fallback
    (abv : List (String × AMap)) (caseA : AMap) (n : String) :
    (∀ override, abvLookup abv n = some override →
      resolve_assertions abv caseA (some n) = override) ∧
    (abvLookup abv n = none →
      resolve_assertions abv caseA (some n) = caseA) ∧
    resolve_assertions abv caseA none = caseA := by
  refine ⟨fun o ho => ?_, fun hn => ?_, rfl⟩
  · simp [resolve_assertions, ho]
  · simp [resolve_assertions, hn]

/-- C4 witness: a concrete matched viewport takes the full override and a
concrete unmatched one falls back to the case-level map. -/
theorem resolve_assertions_replace_or_fallback_witness :
    resolve_assertions [("mobile", [("similarity_max", (0.995 : ℚ))])]
      [("color_diffs_min", 1)] (some "mobile") = [("similarity_max", (0.995 : ℚ))] ∧
    resolve_assertions [("mobile", [("similarity_max", (0.995 : ℚ))])]
      [("color_diffs_min", 1)] (some "desktop") = [("color_diffs_min", 1)] := by
  constructor
  · exact (resolve_assertions_replace_or_fallback
      [("mobile", [("similarity_max", (0.995 : ℚ))])] [("color_diffs_min", 1)]
      "mobile").1 [("similarity_max", (0.995 : ℚ))] rfl
  · exact (resolve_assertions_replace_or_fallback
      [("mobile", [("similarity_max", (0.995 : ℚ))])] [("color_diffs_min", 1)]
      "desktop").2.1 rfl

/-! ## C9 -/

/-- C9 counterexample: a default (non-strict) run can terminate with a
nonzero status — when no cases are found, `main` raises
`SystemExit("No cases found …")`, which exits with status 1 although
strict mode is off and no failure or error was recorded. -/
theorem main_exit_nonstrict_nonzero : main_exit_code false 0 [] 0 = 1 := rfl

/-- C9 amended: provided at least one case is found, the run terminates
nonzero exactly when strict mode is on and at least one failure or error
was recorded; with no cases it terminates nonzero regardless of strict
mode. -/
theorem main_exit_policy (strict : Bool) (numCases : ℕ)
    (failures : List String) (errors : ℕ) (h : 0 < numCases) :
    (main_exit_code strict numCases failures errors ≠ 0 ↔
      strict = true ∧ (failures ≠ [] ∨ errors ≠ 0)) ∧
    main_exit_code false 0 failures errors = 1 := by
  refine ⟨?_, rfl⟩
  unfold main_exit_code
  rw [if_neg (by omega)]
  cases strict with
  | false => simp
  | true =>
    cases failures with
    | nil =>
      cases herr : errors with
      | zero => simp
      | succ e => simp
    | cons f t => simp

/-- C9 witness: a strict run with one case and one recorded failure exits
nonzero. -/
theorem main_exit_policy_witness : main_exit_code true 1 ["f"] 0 ≠ 0 :=
  (main_exit_policy true 1 ["f"] 0 (by decide)).1.mpr ⟨rfl, Or.inl (by simp)⟩

/-! ## C6 -/

theorem jLookup_some_ne_nil {kvs : List (String × Json)} {k : String} {v : Json}
    (h : jLookup kvs k = some v) : kvs.isEmpty = false := by
  cases kvs with
  | nil => simp [jLookup] at h
  | cons p t => rfl

/-- C6: the three payload gates of `check_assertions`, each yielding
exactly one failure with no threshold checks run, for every declared
assertion map: an absent payload reports a missing payload; an
error-mode payload reports the carried error message; a payload whose
mode is neither "compare" nor "error" reports the unexpected mode. -/
theorem check_assertions_payload_gates :
    (∀ a : AMap, check_assertions none a = some [Failure.missingPayload]) ∧
    (∀ (kvs : List (String × Json)) (a : AMap) (e : List (String × Json)) (m : String),
      jLookup kvs "mode" = some (Json.str "error") →
      jLookup kvs "error" = some (Json.obj e) →
      jLookup e "message" = some (Json.str m) →
      check_assertions (some (Json.obj kvs)) a
        = some [Failure.errorPayload (Json.str m)]) ∧
    (∀ (kvs : List (String × Json)) (a : AMap),
      kvs ≠ [] →
      isModeStr kvs "error" = false →
      isModeStr kvs "compare" = false →
      check_assertions (some (Json.obj kvs)) a
        = some [Failure.unexpectedMode (jLookup kvs "mode")]) := by
  refine ⟨fun a => rfl, ?_, ?_⟩
  · intro kvs a e m h1 h2 h3
    have hne := jLookup_some_ne_nil h1
    have hmode : isModeStr kvs "error" = true := by
      simp [isModeStr, h1]
    simp [check_assertions, pyFalsy, hne, hmode, error_message, h2, h3]
  · intro kvs a hne h1 h2
    have hempty : kvs.isEmpty = false := by
      cases kvs with
      | nil => exact absurd rfl hne
      | cons p t => rfl
    simp [check_assertions, pyFalsy, hempty, h1, h2]

/-- C6 witness: an error payload with message "boom" yields exactly the
one error failure even against a nonempty assertion map. -/
theorem check_assertions_payload_gates_witness :
    check_assertions
      (some (Json.obj [("mode", Json.str "error"),
        ("error", Json.obj [("message", Json.str "boom")])]))
      [("similarity_max", (0.5 : ℚ))]
      = some [Failure.errorPayload (Json.str "boom")] :=
  check_assertions_payload_gates.2.1
    [("mode", Json.str "error"), ("error", Json.obj [("message", Json.str "boom")])]
    [("similarity_max", (0.5 : ℚ))] [("message", Json.str "boom")] "boom"
    (by with_unfolding_all rfl) (by with_unfolding_all rfl)
    (by with_unfolding_all rfl)

/-! ## C5 -/

/-- The `metrics.pixel` object of a schema-conforming compare payload:
`diffRegions` present (as a list) or absent. -/
def pixelMetric (pr : Option (List Json)) : Json :=
  Json.obj (match pr with
    | some xs => [("diffRegions", Json.arr xs)]
    | none => [])

/-- The `metrics.color` object: optional `diffs` list and optional `score`. -/
def colorMetric (cd : Option (List Json)) (cs : Option ℚ) : Json :=
  Json.obj ((match cd with
    | some xs => [("diffs", Json.arr xs)]
    | none => []) ++
    (match cs with
    | some q => [("score", Json.num q)]
    | none => []))

/-- A metric object carrying only an optional `score`. -/
def scoreMetric (s : Option ℚ) : Json :=
  Json.obj (match s with
    | some q => [("score", Json.num q)]
    | none => [])

/-- The key/value list of a schema-conforming compare-mode payload
(§3 ComparePayload): mode "compare", optional similarity, and the five
metric objects with each source value optional. -/
def mkKvs (sim : Option ℚ) (pr cd : Option (List Json))
    (cs ts ls co : Option ℚ) : List (String × Json) :=
  [("mode", Json.str "compare")] ++
    (match sim with
     | some q => [("similarity", Json.num q)]
     | none => []) ++
    [("metrics", Json.obj [("pixel", pixelMetric pr), ("color", colorMetric cd cs),
      ("typography", scoreMetric ts), ("layout", scoreMetric ls),
      ("content", scoreMetric co)])]

/-- A compare-mode payload ranging over the ComparePayload schema. -/
def mkComparePayload (sim : Option ℚ) (pr cd : Option (List Json))
    (cs ts ls co : Option ℚ) : Json :=
  Json.obj (mkKvs sim pr cd cs ts ls co)

/-- Modelled from the spec's evaluation rule for `_min` keys: a failure
exactly when the key is declared, the source value is present, and the
observed length is strictly below the threshold; skipped (no failure)
when the source value is absent. -/
def minBlock (a : AMap) (key : String) (o : Option (List Json))
    (mk : ℕ → ℚ → Failure) : List Failure :=
  match alookup a key, o with
  | some thr, some xs => if (xs.length : ℚ) < thr then [mk xs.length thr] else []
  | _, _ => []

/-- Modelled from the spec's evaluation rule for `_max` keys: a failure
exactly when the key is declared, the source value is present, and the
observed value is strictly above the threshold; skipped when absent. -/
def maxBlock (a : AMap) (key : String) (s : Option ℚ)
    (mk : ℚ → ℚ → Failure) : List Failure :=
  match alookup a key, s with
  | some thr, some q => if thr < q then [mk q thr] else []
  | _, _ => []

theorem checkMin_pixelMetric (a : AMap) (key : String) (pr : Option (List Json))
    (mk : ℕ → ℚ → Failure) :
    checkMin a key (some (pixelMetric pr)) "diffRegions" mk
      = some (minBlock a key pr mk) := by
  unfold checkMin minBlock
  cases h : alookup a key with
  | none => rfl
  | some thr => cases pr <;> with_unfolding_all rfl

theorem checkMin_colorMetric (a : AMap) (key : String) (cd : Option (List Json))
    (cs : Option ℚ) (mk : ℕ → ℚ → Failure) :
    checkMin a key (some (colorMetric cd cs)) "diffs" mk
      = some (minBlock a key cd mk) := by
  unfold checkMin minBlock
  cases h : alookup a key with
  | none => rfl
  | some thr => cases cd <;> cases cs <;> with_unfolding_all rfl

theorem checkScoreMax_colorMetric (a : AMap) (key : String)
    (cd : Option (List Json)) (cs : Option ℚ) (mk : ℚ → ℚ → Failure) :
    checkScoreMax a key (some (colorMetric cd cs)) mk
      = some (maxBlock a key cs mk) := by
  unfold checkScoreMax maxBlock
  cases h : alookup a key with
  | none => rfl
  | some thr => cases cd <;> cases cs <;> with_unfolding_all rfl

theorem checkScoreMax_scoreMetric (a : AMap) (key : String) (s : Option ℚ)
    (mk : ℚ → ℚ → Failure) :
    checkScoreMax a key (some (scoreMetric s)) mk
      = some (maxBlock a key s mk) := by
  unfold checkScoreMax maxBlock
  cases h : alookup a key with
  | none => rfl
  | some thr => cases s <;> with_unfolding_all rfl

theorem checkSimilarity_numArg (a : AMap) (q : ℚ) :
    checkSimilarity a (some (Json.num q))
      = some (maxBlock a "similarity_max" (some q) Failure.similarityHigh) := by
  unfold checkSimilarity maxBlock
  cases h : alookup a "similarity_max" <;> rfl

theorem checkSimilarity_noneArg (a : AMap) :
    checkSimilarity a none
      = some (maxBlock a "similarity_max" none Failure.similarityHigh) := by
  unfold checkSimilarity maxBlock
  cases h : alookup a "similarity_max" <;> rfl

/-- C5: on every schema-conforming compare-mode payload and every
assertion map, evaluation equals the spec's rule applied key by key —
each `_min` key fails exactly when the observed count is strictly below
its threshold, each `_max` key exactly when the observed value is
strictly above its threshold, and a key whose source value is absent is
skipped with no failure; in particular `pixel_regions_min = 1` against a
`diffRegions` list of length 0 yields exactly the one failure and
against length 1 yields none. -/
theorem check_assertions_threshold_semantics :
    (∀ (a : AMap) (sim : Option ℚ) (pr cd : Option (List Json))
      (cs ts ls co : Option ℚ),
      check_assertions (some (mkComparePayload sim pr cd cs ts ls co)) a =
        some (minBlock a "pixel_regions_min" pr Failure.pixelRegions ++
          (minBlock a "color_diffs_min" cd Failure.colorDiffs ++
          (maxBlock a "similarity_max" sim Failure.similarityHigh ++
          (maxBlock a "color_score_max" cs Failure.colorScore ++
          (maxBlock a "typography_score_max" ts Failure.typographyScore ++
          (maxBlock a "layout_score_max" ls Failure.layoutScore ++
          maxBlock a "content_score_max" co Failure.contentScore))))))) ∧
    check_assertions (some (mkComparePayload none (some []) none none none none none))
      [("pixel_regions_min", 1)] = some [Failure.pixelRegions 0 1] ∧
    check_assertions
      (some (mkComparePayload none (some [Json.null]) none none none none none))
      [("pixel_regions_min", 1)] = some [] := by
  refine ⟨?_, by with_unfolding_all rfl, by with_unfolding_all rfl⟩
  intro a sim pr cd cs ts ls co
  have hpx : get_metric (some (Json.obj (mkKvs sim pr cd cs ts ls co))) "pixel"
      = some (some (pixelMetric pr)) := by cases sim <;> with_unfolding_all rfl
  have hco : get_metric (some (Json.obj (mkKvs sim pr cd cs ts ls co))) "color"
      = some (some (colorMetric cd cs)) := by cases sim <;> with_unfolding_all rfl
  have hty : get_metric (some (Json.obj (mkKvs sim pr cd cs ts ls co))) "typography"
      = some (some (scoreMetric ts)) := by cases sim <;> with_unfolding_all rfl
  have hla : get_metric (some (Json.obj (mkKvs sim pr cd cs ts ls co))) "layout"
      = some (some (scoreMetric ls)) := by cases sim <;> with_unfolding_all rfl
  have hcn : get_metric (some (Json.obj (mkKvs sim pr cd cs ts ls co))) "content"
      = some (some (scoreMetric co)) := by cases sim <;> with_unfolding_all rfl
  have hsim : jLookup (mkKvs sim pr cd cs ts ls co) "similarity" = sim.map Json.num := by
    cases sim <;> with_unfolding_all rfl
  have hfalsy : pyFalsy (mkComparePayload sim pr cd cs ts ls co) = false := by
    cases sim <;> rfl
  have herr : isModeStr (mkKvs sim pr cd cs ts ls co) "error" = false := by
    cases sim <;> with_unfolding_all rfl
  have hcmp : isModeStr (mkKvs sim pr cd cs ts ls co) "compare" = true := by
    cases sim <;> with_unfolding_all rfl
  show check_assertions (some (Json.obj (mkKvs sim pr cd cs ts ls co))) a = _
  simp only [check_assertions]
  rw [show pyFalsy (Json.obj (mkKvs sim pr cd cs ts ls co)) = false from hfalsy,
      herr, hcmp]
  simp only [Bool.false_eq_true, if_false, Bool.not_true, hsim]
  rw [hpx, hco, hty, hla, hcn]
  simp only [Bind.bind, Option.bind]
  rw [checkMin_pixelMetric, checkMin_colorMetric]
  cases sim with
  | none =>
    simp only [Option.map_none', checkSimilarity_noneArg]
    rw [checkScoreMax_colorMetric, checkScoreMax_scoreMetric,
        checkScoreMax_scoreMetric, checkScoreMax_scoreMetric]
    simp [Option.bind]
  | some q =>
    simp only [Option.map_some', checkSimilarity_numArg]
    rw [checkScoreMax_colorMetric, checkScoreMax_scoreMetric,
        checkScoreMax_scoreMetric, checkScoreMax_scoreMetric]
    simp [Option.bind]

/-! ## C7 -/

/-- Pointwise order on optional delta levels: an absent level is below
everything, present levels compare as naturals. -/
def optLe : Option ℕ → Option ℕ → Prop
  | none, _ => True
  | some _, none => False
  | some x, some y => x ≤ y

theorem pyMax_cons_le {x y : ℕ} (L : List ℕ) (h : x ≤ y) :
    optLe (pyMax (x :: L)) (pyMax (y :: L)) := by
  unfold pyMax
  cases pyMax L with
  | none => exact h
  | some m => exact max_le_max h le_rfl

theorem pyMax_cons_mono {A B : List ℕ} (x : ℕ) (h : optLe (pyMax A) (pyMax B)) :
    optLe (pyMax (x :: A)) (pyMax (x :: B)) := by
  unfold pyMax
  cases hA : pyMax A with
  | none =>
    cases hB : pyMax B with
    | none => exact le_rfl
    | some m => exact le_max_left x m
  | some m =>
    cases hB : pyMax B with
    | none => rw [hA, hB] at h; exact absurd h (by simp [optLe])
    | some m2 =>
      rw [hA, hB] at h
      exact max_le_max le_rfl h

theorem pyMax_eq_none {xs : List ℕ} : pyMax xs = none ↔ xs = [] := by
  cases xs with
  | nil => simp [pyMax]
  | cons x t =>
    simp only [pyMax]
    cases pyMax t <;> simp

theorem pyMax_filterMap_set (f : Mutation → Option ℕ) :
    ∀ (t : List Mutation) (j : ℕ) (hj : j < t.length) (m' : Mutation) (l l' : ℕ),
      f (t.get ⟨j, hj⟩) = some l → f m' = some l' → l ≤ l' →
      optLe (pyMax (t.filterMap f)) (pyMax ((t.set j m').filterMap f)) := by
  intro t
  induction t with
  | nil => intro j hj; exact absurd hj (Nat.not_lt_zero j)
  | cons a tl ih =>
    intro j hj m' l l' h1 h2 h3
    cases j with
    | zero =>
      simp only [List.get] at h1
      simp only [List.set, List.filterMap_cons, h1, h2]
      exact pyMax_cons_le _ (h3.trans_eq rfl)
    | succ j' =>
      have hj' : j' < tl.length := by simpa using hj
      have hrec := ih j' hj' m' l l' (by simpa using h1) h2 h3
      simp only [List.set, List.filterMap_cons]
      cases hfa : f a with
      | none => exact hrec
      | some x => exact pyMax_cons_mono x hrec

/-- C7: `max_delta_level` is monotone — upgrading any one mutation's delta
to a higher level in the `DELTA_ORDER` table never decreases the result —
and it is `none` exactly when the mutation list is empty or no mutation
carries a recognized delta. -/
theorem max_delta_level_monotone_none_iff :
    (∀ (muts : List Mutation) (j : ℕ) (hj : j < muts.length) (d d' : String) (l l' : ℕ),
      (muts.get ⟨j, hj⟩).delta = some d →
      DELTA_ORDER d = some l → DELTA_ORDER d' = some l' → l ≤ l' →
      optLe (max_delta_level muts)
        (max_delta_level (muts.set j ⟨(muts.get ⟨j, hj⟩).property, some d'⟩))) ∧
    (∀ muts : List Mutation,
      max_delta_level muts = none ↔
        (muts = [] ∨ ∀ m ∈ muts, deltaOrder m.delta = none)) := by
  constructor
  · intro muts j hj d d' l l' hd hl hl' hle
    have hne : muts.isEmpty = false := by
      cases muts with
      | nil => exact absurd hj (Nat.not_lt_zero j)
      | cons a t => rfl
    have hne2 : (muts.set j ⟨(muts.get ⟨j, hj⟩).property, some d'⟩).isEmpty = false := by
      cases muts with
      | nil => exact absurd hj (Nat.not_lt_zero j)
      | cons a t => cases j <;> rfl
    unfold max_delta_level
    rw [hne, hne2]
    simp only [Bool.false_eq_true, if_false]
    exact pyMax_filterMap_set _ muts j hj _ l l'
      (by rw [hd]; exact hl) hl' hle
  · intro muts
    unfold max_delta_level
    cases muts with
    | nil => simp
    | cons a t =>
      simp only [List.isEmpty_cons, Bool.false_eq_true, if_false]
      constructor
      · intro h
        right
        intro m hm
        have hfl : (a :: t).filterMap (fun m => deltaOrder m.delta) = [] :=
          pyMax_eq_none.mp h
        exact List.filterMap_eq_nil_iff.mp hfl m hm
      · rintro (h | h)
        · cases h
        · have hfl : (a :: t).filterMap (fun m => deltaOrder m.delta) = [] :=
            List.filterMap_eq_nil_iff.mpr h
          rw [hfl]
          rfl

/-- C7 witness: upgrading a small font-size delta to large does not
decrease the maximum level. -/
theorem max_delta_level_monotone_witness :
    optLe (max_delta_level [⟨some "font-size", some "small"⟩])
      (max_delta_level [⟨some "font-size", some "large"⟩]) :=
  max_delta_level_monotone_none_iff.1 [⟨some "font-size", some "small"⟩] 0
    (by decide) "small" "large" 1 3 rfl (by with_unfolding_all rfl)
    (by with_unfolding_all rfl) (by decide)

/-! ## C8 -/

/-- C8 counterexample: a caller-supplied explicit assertion map is *not*
always stored unchanged.  Supplying the explicit empty map `\x7b\x7d` for a
"color" case stores the derived defaults instead, because Python's
`assertions or default_assertions(...)` falls through on any falsy value,
the empty dict included. -/
theorem add_case_empty_explicit_not_kept :
    (add_case [] "c" "t" ["color"] "low" [] [] "r" "i" none none none
        (some []) none).getLast?.map CaseRecord.assertions ≠ some [] := by
  intro h
  have : (add_case [] "c" "t" ["color"] "low" [] [] "r" "i" none none none
      (some []) none).getLast?.map CaseRecord.assertions
      = some [("color_diffs_min", 1), ("color_score_max", (0.9995 : ℚ))] := by
    with_unfolding_all rfl
  rw [this] at h
  have := Option.some.inj h
  simp at this

/-- C8 amended: a *nonempty* explicit assertion map is stored unchanged,
and the Assertion Deriver is consulted exactly when the explicit map is
absent or empty. -/
theorem add_case_assertions_policy (cases : List CaseRecord)
    (cid title : String) (category : List String) (complexity : String)
    (mutations : List Mutation) (expectations : List Json)
    (ref_html impl_html : String) (viewport viewports notes : Option Json)
    (abv : Option (List (String × AMap))) (a : AMap) :
    (a ≠ [] →
      (add_case cases cid title category complexity mutations expectations
          ref_html impl_html viewport viewports notes (some a) abv).getLast?.map
        CaseRecord.assertions = some a) ∧
    ((add_case cases cid title category complexity mutations expectations
        ref_html impl_html viewport viewports notes none abv).getLast?.map
      CaseRecord.assertions =
        some (default_assertions category complexity mutations)) ∧
    ((add_case cases cid title category complexity mutations expectations
        ref_html impl_html viewport viewports notes (some []) abv).getLast?.map
      CaseRecord.assertions =
        some (default_assertions category complexity mutations)) := by
  refine ⟨fun ha => ?_, ?_, ?_⟩
  · unfold add_case
    rw [List.getLast?_concat]
    simp [List.isEmpty_iff, ha]
  · unfold add_case
    rw [List.getLast?_concat]
    rfl
  · unfold add_case
    rw [List.getLast?_concat]
    simp

/-! ## C2 -/

/-- Combination of two optional maxima (the maximum over a concatenation). -/
def optCombine (a b : Option ℕ) : Option ℕ :=
  match a, b with
  | none, b => b
  | some x, none => some x
  | some x, some y => some (max x y)

theorem pyMax_append (s t : List ℕ) :
    pyMax (s ++ t) = optCombine (pyMax s) (pyMax t) := by
  induction s with
  | nil => cases h : pyMax t <;> simp [pyMax, optCombine, h]
  | cons x s ih =>
    simp only [List.cons_append, pyMax, ih]
    cases hs : pyMax s <;> cases ht : pyMax t <;>
      simp [optCombine, ih, hs, ht, max_assoc]

theorem optCombine_comm (a b : Option ℕ) : optCombine a b = optCombine b a := by
  cases a <;> cases b <;> simp [optCombine, max_comm]

theorem pyMax_reverse (s : List ℕ) : pyMax s.reverse = pyMax s := by
  induction s with
  | nil => rfl
  | cons x t ih =>
    rw [List.reverse_cons, pyMax_append, ih, optCombine_comm]
    cases h : pyMax t <;> simp [pyMax, optCombine, h]

theorem pyMax_mem : ∀ {s : List ℕ} {m : ℕ}, pyMax s = some m → m ∈ s := by
  intro s
  induction s with
  | nil => intro m h; simp [pyMax] at h
  | cons x t ih =>
    intro m h
    simp only [pyMax] at h
    cases ht : pyMax t with
    | none =>
      rw [ht] at h
      simp only [Option.some.injEq] at h
      simp [← h]
    | some k =>
      rw [ht] at h
      simp only [Option.some.injEq] at h
      rcases max_choice x k with hc | hc
      · rw [hc] at h; simp [← h]
      · rw [hc] at h; simp [← h, ih ht]

/-- The first-success scan over a strictly descending position list picks
exactly the largest position whose chunk parses. -/
theorem tryFrom_pairwise_gt (text : List Char) :
    ∀ l : List ℕ, l.Pairwise (· > ·) →
      tryFrom text l =
        (match pyMax (l.filter (fun i => (attemptChunk text i).isSome)) with
         | some i => attemptChunk text i
         | none => none) := by
  intro l
  induction l with
  | nil => intro _; rfl
  | cons i rest ih =>
    intro hp
    have hall : ∀ j ∈ rest, i > j := (List.pairwise_cons.mp hp).1
    have htail := ih (List.pairwise_cons.mp hp).2
    simp only [tryFrom, List.filter_cons]
    cases hA : attemptChunk text i with
    | some v =>
      simp only [hA, Option.isSome_some, if_true]
      cases hs : pyMax (rest.filter (fun jj => (attemptChunk text jj).isSome)) with
      | none => simp [pyMax, hs, hA]
      | some m =>
        have hmem : m ∈ rest := List.mem_of_mem_filter (pyMax_mem hs)
        have hmax : max i m = i := max_eq_left (le_of_lt (hall m hmem))
        simp [pyMax, hs, hmax, hA]
    | none =>
      simp only [hA, Option.isSome_none, Bool.false_eq_true, if_false]
      exact htail

theorem extract_json_eq_spec (text : List Char) :
    extract_json text = extract_json_spec text := by
  by_cases hE : text = []
  · subst hE; rfl
  · unfold extract_json extract_json_spec
    have hne : text.isEmpty = false := by simpa [List.isEmpty_iff] using hE
    rw [hne]
    simp only [Bool.false_eq_true, if_false]
    cases hl : loads text with
    | some v => rfl
    | none =>
      have hpw : (bracePositions text).reverse.Pairwise (· > ·) :=
        List.pairwise_reverse.mpr ((List.pairwise_lt_range _).filter _)
      rw [tryFrom_pairwise_gt text _ hpw, List.filter_reverse, pyMax_reverse]

/-- C2: payload recovery in `run_compare` implements the spec's four-step
algorithm — parse the whole trimmed stdout; failing that, take the suffix
at the *largest* opening-brace position that parses; if stdout yields
nothing repeat on trimmed stderr; and when both yield nothing the payload
is absent (`none`), a value distinct by type from any parsed error
payload. -/
theorem recover_payload_matches_spec (stdout stderr : List Char) :
    recover_payload stdout stderr = recover_payload_spec stdout stderr := by
  unfold recover_payload recover_payload_spec
  rw [extract_json_eq_spec, extract_json_eq_spec]

/-! ## C3 -/

/-- C3: the derived threshold table.  A `\x7b"color"\x7d` low-complexity case
derives exactly `color_diffs_min = 1, color_score_max = 0.9995`; a
`\x7b"layout"\x7d` high-complexity case derives exactly
`pixel_regions_min = 1, similarity_max = 0.995`; and whenever the category
contains "typography" and some mutation touches a typography property, the
`typography_score_max` entry is 0.9999/0.999/0.995/0.99 for max delta
level 0/1/2/3 and absent when the level is none. -/
theorem default_assertions_threshold_table :
    default_assertions ["color"] "low" []
      = [("color_diffs_min", 1), ("color_score_max", (0.9995 : ℚ))] ∧
    default_assertions ["layout"] "high" []
      = [("pixel_regions_min", 1), ("similarity_max", (0.995 : ℚ))] ∧
    ∀ (category : List String) (complexity : String) (muts : List Mutation),
      "typography" ∈ category → has_typography_change muts = true →
      alookup (default_assertions category complexity muts) "typography_score_max" =
        (match max_delta_level muts with
         | some 0 => some (0.9999 : ℚ)
         | some 1 => some (0.999 : ℚ)
         | some 2 => some (0.995 : ℚ)
         | some 3 => some (0.99 : ℚ)
         | _ => none) := by
  refine ⟨by with_unfolding_all rfl, by with_unfolding_all rfl, ?_⟩
  intro category complexity muts h1 h2
  unfold default_assertions
  simp only [List.append_assoc]
  rw [alookup_skip_append _ _ _ (by split <;> simp),
      alookup_skip_append _ _ _ (by split <;> simp),
      if_pos (show "typography" ∈ category ∧ has_typography_change muts = true
        from ⟨h1, h2⟩)]
  rcases hm : max_delta_level muts with _ | lvl
  · rw [show (match (none : Option ℕ) with
        | some 0 => [(("typography_score_max" : String), (0.9999 : ℚ))]
        | some 1 => [("typography_score_max", 0.999)]
        | some 2 => [("typography_score_max", 0.995)]
        | some 3 => [("typography_score_max", 0.99)]
        | _ => []) = [] from rfl]
    rw [List.nil_append, alookup_skip_append _ _ _ (by split <;> simp)]
    split <;> simp [alookup]
  · match lvl with
    | 0 => simp [alookup, List.find?_cons]
    | 1 => simp [alookup, List.find?_cons]
    | 2 => simp [alookup, List.find?_cons]
    | 3 => simp [alookup, List.find?_cons]
    | n + 4 =>
      rw [show (match (some (n + 4) : Option ℕ) with
          | some 0 => [(("typography_score_max" : String), (0.9999 : ℚ))]
          | some 1 => [("typography_score_max", 0.999)]
          | some 2 => [("typography_score_max", 0.995)]
          | some 3 => [("typography_score_max", 0.99)]
          | _ => []) = [] from rfl]
      rw [List.nil_append, alookup_skip_append _ _ _ (by split <;> simp)]
      split <;> simp [alookup]

/-- C3 witness: a typography case with one tiny font-size mutation derives
`typography_score_max = 0.9999`. -/
theorem default_assertions_threshold_table_witness :
    alookup (default_assertions ["typography"] "low"
      [⟨some "font-size", some "tiny"⟩]) "typography_score_max"
      = some (0.9999 : ℚ) := by
  have h := default_assertions_threshold_table.2.2 ["typography"] "low"
    [⟨some "font-size", some "tiny"⟩] (by simp) (by with_unfolding_all rfl)
  exact h.trans (by with_unfolding_all rfl)

/-- C8 witness: a concrete nonempty explicit map survives unchanged. -/
theorem add_case_assertions_policy_witness :
    (add_case [] "c" "t" ["color"] "low" [] [] "r" "i" none none none
        (some [("similarity_max", (0.9 : ℚ))]) none).getLast?.map
      CaseRecord.assertions = some [("similarity_max", (0.9 : ℚ))] :=
  (add_case_assertions_policy [] "c" "t" ["color"] "low" [] [] "r" "i"
    none none none none [("similarity_max", (0.9 : ℚ))]).1 (by simp)

end DPC
